import Mathlib

/-!
Verification of the exercise state machine and form-scoring engine of the
Fitness-App repository, a shallow embedding of
`src/python-fitness-trainer/exercise_engine.py`.

Modelling conventions:
* Joint angles and thresholds are rationals (`ℚ`); every operation the engine
  performs on an angle is an order comparison, which `ℚ` models faithfully.
  The trigonometric angle computation itself (`calculate_angle`) is embedded
  separately over the reals.
* The Python object `ExerciseEngine` is split into its immutable
  configuration part (`Engine`, the fields assigned once in `__init__`) and
  its mutable part (`EngineState`: `current_stage`, `reps`, `feedback`,
  `voice_message`, `form_score`).
* Exceptions raised by `process` are modelled by returning
  `Except String Output`; because the Python method mutates `self` before a
  possible raise, `process` returns the state reached at the raise point
  together with the error.
* The YAML dictionary is modelled by `RawConfig` with `Option` fields for
  possibly-missing keys; the `voice_feedback` collaborator is absent
  (constructed with `voice_feedback=None`), which skips all `speak_*` calls
  and does not affect the returned tuples or the engine state.
* The string-substitution condition evaluator `evaluate_condition` (which
  can never raise: it has a catch-all handler returning `False`) and the
  angle routine are abstracted as parameters `eC` and `aF`; all engine
  theorems hold for every choice of these total functions.
-/

namespace FitnessEngine

/-- The repetition phase. `current_stage` in the Python source is a string
that is only ever assigned `"START"`, `"DOWN"` or `"UP"`. -/
inductive Stage
  | START
  | DOWN
  | UP
deriving DecidableEq, Repr

/-- The string the Python code stores for a stage (used when handing the
stage to the condition evaluator). -/
def stageStr : Stage → String
  | .START => "START"
  | .DOWN => "DOWN"
  | .UP => "UP"

/-- Python's `str.lower` on one ASCII character (shift an upper-case
letter by 32 code points). -/
def lowerChar (c : Char) : Char :=
  if c.isUpper then Char.ofNat (c.toNat + 32) else c

/-- Python's `str.lower`, character by character. -/
def strLower (s : String) : String :=
  ⟨s.data.map lowerChar⟩

/-- Auxiliary substring search on character lists: does `pat` occur as a
contiguous sublist of the second argument? -/
def substrAux (pat : List Char) : List Char → Bool
  | [] => pat.isPrefixOf []
  | c :: rest => pat.isPrefixOf (c :: rest) || substrAux pat rest

/-- Python's `pat in s` substring containment test. -/
def containsSub (s pat : String) : Bool :=
  substrAux pat.data s.data

/-- One entry of the YAML `feedback` list: `condition`, `message`, and the
optional `voice` (absent means `rule.get('voice', message)` falls back to
the message). -/
structure Rule where
  condition : String
  message : String
  voice? : Option String
deriving DecidableEq, Repr

/-- The immutable part of the constructed `ExerciseEngine` object: the
fields `__init__` derives from the YAML configuration.  `name?`,
`feedback_rules?` are `Option`s because `__init__` never reads
`exercise_config['name']` (with `voice_feedback=None`) nor
`exercise_config['feedback']`, so an engine can be built from a config
missing those keys; `landmarkTriple?` is an `Option` because when the
`landmarks` dict has neither a `hip` nor a `shoulder` key the attributes
`landmark1..3` are never assigned. -/
structure Engine where
  name? : Option String
  feedback_rules? : Option (List Rule)
  landmarkTriple? : Option (ℕ × ℕ × ℕ)
  start_threshold : ℚ
  down_threshold : ℚ
  up_threshold : ℚ
  feedback_threshold : ℚ
  perfect_range : ℚ × ℚ
deriving DecidableEq, Repr

/-- `self.perfect_form_threshold = 85`, assigned in `__init__`, never
modified. -/
def perfect_form_threshold : ℕ := 85

/-- The mutable per-session fields of the engine object. -/
structure EngineState where
  current_stage : Stage
  reps : ℕ
  feedback : String
  voice_message : String
  form_score : ℕ
deriving DecidableEq, Repr

/-- The state installed by `__init__` (and restored by `reset`). -/
def initialState : EngineState :=
  { current_stage := .START, reps := 0, feedback := "", voice_message := "",
    form_score := 100 }

/-- The 5-tuple `(reps, status, feedback, voice_message, form_score)`
returned by `process`. -/
structure Output where
  reps : ℕ
  stage : Stage
  feedback : String
  voice : String
  score : ℕ
deriving DecidableEq, Repr

/-- The `landmarks` sub-dictionary of a parsed exercise YAML file. -/
structure RawLandmarks where
  hip? : Option ℕ
  knee? : Option ℕ
  ankle? : Option ℕ
  shoulder? : Option ℕ
  elbow? : Option ℕ
  wrist? : Option ℕ
deriving DecidableEq, Repr

/-- The `parameters` sub-dictionary; all keys are optional and `__init__`
reads them with `dict.get` and a documented default. -/
structure RawParams where
  angle_threshold_start? : Option ℚ
  angle_threshold_down? : Option ℚ
  angle_threshold_up? : Option ℚ
  feedback_threshold? : Option ℚ
  perfect_range_min? : Option ℚ
  perfect_range_max? : Option ℚ
deriving DecidableEq, Repr

/-- A parsed exercise YAML document (a dictionary with possibly-missing
keys). -/
structure RawConfig where
  name? : Option String
  landmarks? : Option RawLandmarks
  parameters? : Option RawParams
  feedback? : Option (List Rule)
deriving DecidableEq, Repr

/-- `ExerciseEngine.__init__` (with `voice_feedback=None`): the argument
models the exercise file — `none` is a missing file (`load_exercise`
raises `FileNotFoundError`), `some none` a file whose YAML parse does not
yield a dictionary (the first subscript access raises), `some (some cfg)`
a parsed dictionary.  `__init__` fails on a missing `landmarks` or
`parameters` key, or when a declared `hip`/`shoulder` group lacks its two
companion joints; any other malformation constructs successfully. -/
def init (file : Option (Option RawConfig)) : Except String Engine :=
  match file with
  | none => .error "FileNotFoundError"
  | some none => .error "TypeError: config is not a dict"
  | some (some cfg) =>
    match cfg.landmarks? with
    | none => .error "KeyError: landmarks"
    | some lm =>
      match
        (match lm.hip? with
         | some h =>
           match lm.knee?, lm.ankle? with
           | some k, some a => Except.ok (some (h, k, a))
           | _, _ => Except.error "KeyError: knee or ankle"
         | none =>
           match lm.shoulder? with
           | some sh =>
             match lm.elbow?, lm.wrist? with
             | some e, some w => Except.ok (some (sh, e, w))
             | _, _ => Except.error "KeyError: elbow or wrist"
           | none => Except.ok none) with
      | .error e => .error e
      | .ok triple? =>
        match cfg.parameters? with
        | none => .error "KeyError: parameters"
        | some p =>
          .ok { name? := cfg.name?
                feedback_rules? := cfg.feedback?
                landmarkTriple? := triple?
                start_threshold := p.angle_threshold_start?.getD 160
                down_threshold := p.angle_threshold_down?.getD 90
                up_threshold := p.angle_threshold_up?.getD 50
                feedback_threshold := p.feedback_threshold?.getD 100
                perfect_range := (p.perfect_range_min?.getD 70,
                                  p.perfect_range_max?.getD 90) }

/-- `ExerciseEngine.calculate_form_score`: detailed form score from the
exercise name (substring dispatch on the lowercased name), the current
stage and the angle. -/
def calculate_form_score (name : String) (stage : Stage) (angle : ℚ) : ℕ :=
  if containsSub (strLower name) "squat" then
    if stage = .DOWN then
      if 70 ≤ angle ∧ angle ≤ 90 then 100
      else if 65 ≤ angle ∧ angle ≤ 95 then 90
      else if 60 ≤ angle ∧ angle ≤ 100 then 75
      else if 50 ≤ angle ∧ angle ≤ 110 then 60
      else 40
    else 95
  else if containsSub (strLower name) "push" then
    if stage = .DOWN then
      if 60 ≤ angle ∧ angle ≤ 90 then 100
      else if 55 ≤ angle ∧ angle ≤ 95 then 90
      else if 50 ≤ angle ∧ angle ≤ 100 then 75
      else 60
    else 95
  else if containsSub (strLower name) "bicep" then
    if stage = .UP then
      if 30 ≤ angle ∧ angle ≤ 50 then 100
      else if 25 ≤ angle ∧ angle ≤ 55 then 90
      else if 20 ≤ angle ∧ angle ≤ 60 then 75
      else 60
    else 95
  else 80

/-- The state-machine block of `process` (source lines 92–116): from the
exercise name, the thresholds, the current stage and the angle, compute
the next stage and whether a repetition was completed this call. -/
def state_machine (name : String) (cfg : Engine) (stage : Stage) (angle : ℚ) :
    Stage × Bool :=
  if containsSub (strLower name) "bicep" then
    if angle > cfg.start_threshold then
      if stage = .UP then (.DOWN, true) else (.START, false)
    else if angle < cfg.up_threshold then (.UP, false)
    else (stage, false)
  else
    if angle > cfg.start_threshold then
      if stage = .DOWN then (.UP, true) else (.START, false)
    else if angle < cfg.down_threshold then (.DOWN, false)
    else (stage, false)

/-- `ExerciseEngine.generate_feedback`: the prioritized feedback decision
list.  `eC` abstracts `evaluate_condition` (a total function: the Python
original catches every exception and returns `False`).  Reading the
`feedback` rules (only reached when `form_score ≥ 85`) raises `KeyError`
when the config has no `feedback` key. -/
def generate_feedback (cfg : Engine) (eC : String → ℚ → String → Bool)
    (angle : ℚ) (stage : Stage) (form_score : ℕ) :
    Except String (String × String) :=
  if form_score < perfect_form_threshold then
    if form_score < 60 then
      .ok ("Poor Form!", "Focus on your form! Slow down and control the movement!")
    else
      .ok ("Improve Form", "Almost there! Adjust your form slightly for perfect reps!")
  else
    match cfg.feedback_rules? with
    | none => .error "KeyError: feedback"
    | some rules =>
      match rules.find? (fun r => eC r.condition angle (stageStr stage)) with
      | some r => .ok (r.message, r.voice?.getD r.message)
      | none =>
        if form_score ≥ 95 then
          .ok ("Perfect Form!", "Excellent technique! Keep it up!")
        else if form_score ≥ perfect_form_threshold then
          .ok ("Good Form", "Great form! This rep will count!")
        else
          match stage with
          | .START => .ok ("Ready", "Ready for next rep")
          | .DOWN => .ok ("Good depth!", "")
          | .UP => .ok ("Great rep!", "")

/-- One landmark `(id, x, y)` as consumed from the pose estimator. -/
abbrev Landmark := ℕ × ℚ × ℚ

/-- The point-collection loop of `process` (source lines 73–79), as a
left-to-right scan with the accumulated `(point1, point2, point3)`: a
later matching entry overwrites an earlier one, and the `elif` chain
gives `landmark1` priority over `landmark2` over `landmark3`. -/
def scanPoints (l1 l2 l3 : ℕ)
    (acc : Option (ℚ × ℚ) × Option (ℚ × ℚ) × Option (ℚ × ℚ)) :
    List Landmark → Option (ℚ × ℚ) × Option (ℚ × ℚ) × Option (ℚ × ℚ)
  | [] => acc
  | lm :: rest =>
    scanPoints l1 l2 l3
      (if lm.1 = l1 then (some (lm.2.1, lm.2.2), acc.2.1, acc.2.2)
       else if lm.1 = l2 then (acc.1, some (lm.2.1, lm.2.2), acc.2.2)
       else if lm.1 = l3 then (acc.1, acc.2.1, some (lm.2.1, lm.2.2))
       else acc) rest

/-- Collect the three configured joints from a frame, starting from the
all-`None` accumulator of `process`. -/
def findPoints (l1 l2 l3 : ℕ) (landmarks : List Landmark) :
    Option (ℚ × ℚ) × Option (ℚ × ℚ) × Option (ℚ × ℚ) :=
  scanPoints l1 l2 l3 (none, none, none) landmarks

/-- Source lines 89–145 of `process`, after the angle has been computed:
score the form against the pre-transition stage, run the state machine,
apply the perfect-form gate, then generate feedback from the
post-transition stage and that score.  A raise at the missing-`name` or
missing-`feedback` access returns the state reached so far together with
the error. -/
def processCore (cfg : Engine) (eC : String → ℚ → String → Bool)
    (s : EngineState) (angle : ℚ) : EngineState × Except String Output :=
  match cfg.name? with
  | none => (s, .error "KeyError: name")
  | some nm =>
    let score := calculate_form_score nm s.current_stage angle
    let s1 : EngineState := { s with form_score := score }
    let sm := state_machine nm cfg s.current_stage angle
    let s2 : EngineState := { s1 with current_stage := sm.1 }
    let s3 : EngineState :=
      if sm.2 ∧ perfect_form_threshold ≤ score then
        { s2 with reps := s2.reps + 1 }
      else s2
    match generate_feedback cfg eC angle sm.1 score with
    | .error e => (s3, .error e)
    | .ok fv =>
      ({ s3 with feedback := fv.1, voice_message := fv.2 },
       .ok { reps := s3.reps, stage := sm.1, feedback := fv.1,
             voice := fv.2, score := score })

/-- `ExerciseEngine.process` (with `voice_feedback=None`): the per-frame
entry point.  `aF` abstracts `calculate_angle` (embedded separately over
the reals).  Accessing the never-assigned `self.landmark1` on a non-empty
frame raises `AttributeError`, which the surrounding
`except (IndexError, TypeError)` does not catch. -/
def process (cfg : Engine) (eC : String → ℚ → String → Bool)
    (aF : ℚ × ℚ → ℚ × ℚ → ℚ × ℚ → ℚ)
    (s : EngineState) (landmarks : List Landmark) :
    EngineState × Except String Output :=
  if landmarks = [] then
    (s, .ok { reps := s.reps, stage := s.current_stage,
              feedback := "No pose detected", voice := "", score := 0 })
  else
    match cfg.landmarkTriple? with
    | none => (s, .error "AttributeError: landmark1")
    | some t =>
      match findPoints t.1 t.2.1 t.2.2 landmarks with
      | (some p1, some p2, some p3) => processCore cfg eC s (aF p1 p2 p3)
      | _ =>
        (s, .ok { reps := s.reps, stage := s.current_stage,
                  feedback := "Required landmarks not detected", voice := "",
                  score := 0 })

/-- Feeding the same frame `n` times in succession (the state threading a
caller performs; on a raise the mutations made before the raise point are
kept, as in the Python object). -/
def processN (cfg : Engine) (eC : String → ℚ → String → Bool)
    (aF : ℚ × ℚ → ℚ × ℚ → ℚ × ℚ → ℚ)
    (landmarks : List Landmark) : ℕ → EngineState → EngineState
  | 0, s => s
  | n + 1, s => processN cfg eC aF landmarks n (process cfg eC aF s landmarks).1

/-- Feeding an arbitrary sequence of frames in succession. -/
def processSeq (cfg : Engine) (eC : String → ℚ → String → Bool)
    (aF : ℚ × ℚ → ℚ × ℚ → ℚ × ℚ → ℚ)
    (s : EngineState) : List (List Landmark) → EngineState
  | [] => s
  | L :: rest => processSeq cfg eC aF (process cfg eC aF s L).1 rest

/-- A concrete squat engine (hip/knee/ankle joints 23/25/27, default
thresholds, empty feedback-rule list) used to instantiate theorems at
concrete inputs. -/
def demoEngine : Engine :=
  { name? := some "Squat", feedback_rules? := some [],
    landmarkTriple? := some (23, 25, 27), start_threshold := 160,
    down_threshold := 90, up_threshold := 50, feedback_threshold := 100,
    perfect_range := (70, 90) }

/-- A trivial instantiation of the abstracted condition evaluator: no
feedback rule ever fires. -/
def trivialCond : String → ℚ → String → Bool := fun _ _ _ => false

/-- A trivial instantiation of the abstracted angle routine. -/
def zeroAngle : ℚ × ℚ → ℚ × ℚ → ℚ × ℚ → ℚ := fun _ _ _ => 0

/-- An angle routine returning a constant angle, for instantiating
theorems at a chosen joint angle. -/
def angleConst (q : ℚ) : ℚ × ℚ → ℚ × ℚ → ℚ × ℚ → ℚ := fun _ _ _ => q

/-- A concrete frame carrying the three joints 23/25/27 of `demoEngine`. -/
def frame23 : List Landmark := [(23, 0, 0), (25, 1, 0), (27, 1, 1)]

/-- The engine state in the DOWN phase (bottom of a squat). -/
def downState : EngineState := { initialState with current_stage := .DOWN }

/-- An engine identical to `demoEngine` except that its name matches none
of the three recognized exercise kinds. -/
def otherEngine : Engine := { demoEngine with name? := some "Yoga" }

/-- A parsed YAML document that is missing its `name` key but is otherwise
complete: `__init__` never reads `name` (with `voice_feedback=None`), so
construction succeeds. -/
def noNameConfig : RawConfig :=
  { name? := none
    landmarks? := some { hip? := some 23, knee? := some 25,
                         ankle? := some 27, shoulder? := none,
                         elbow? := none, wrist? := none }
    parameters? := some { angle_threshold_start? := none,
                          angle_threshold_down? := none,
                          angle_threshold_up? := none,
                          feedback_threshold? := none,
                          perfect_range_min? := none,
                          perfect_range_max? := none }
    feedback? := some [] }

/-- The engine `__init__` builds from `noNameConfig`. -/
def noNameEngine : Engine :=
  { name? := none, feedback_rules? := some [],
    landmarkTriple? := some (23, 25, 27), start_threshold := 160,
    down_threshold := 90, up_threshold := 50, feedback_threshold := 100,
    perfect_range := (70, 90) }

/-- `ExerciseEngine.calculate_angle`, over the reals: the dot-product /
`acos` formulation with the cosine clamped to `[-1, 1]` and the
degenerate guard returning `0` when either leg vector has zero length
(`math.degrees x = x * 180 / π`). -/
noncomputable def calculate_angle (p1 p2 p3 : ℝ × ℝ) : ℝ :=
  if Real.sqrt ((p1.1 - p2.1) ^ 2 + (p1.2 - p2.2) ^ 2) = 0 ∨
     Real.sqrt ((p3.1 - p2.1) ^ 2 + (p3.2 - p2.2) ^ 2) = 0 then 0
  else
    Real.arccos (max (-1) (min 1
      (((p1.1 - p2.1) * (p3.1 - p2.1) + (p1.2 - p2.2) * (p3.2 - p2.2)) /
       (Real.sqrt ((p1.1 - p2.1) ^ 2 + (p1.2 - p2.2) ^ 2) *
        Real.sqrt ((p3.1 - p2.1) ^ 2 + (p3.2 - p2.2) ^ 2))))) * 180 / Real.pi

/-! ### Specification-side definitions

The following definitions transcribe the *claims'* wording (not the
source); the refinement theorems below compare them with the
source-derived functions. -/

/-- Spec-side transition for the flexion-first pattern (squat, push-up),
reading the claim's clauses in order: a rep completes exactly when the
phase is DOWN and the angle strictly exceeds `startThreshold` (phase
becomes UP); exceeding `startThreshold` otherwise resets to START with no
rep; an angle strictly below `downThreshold` sends the phase to DOWN;
otherwise the phase is unchanged. -/
def stepSpecFlex (startT downT : ℚ) (phase : Stage) (angle : ℚ) :
    Stage × Bool :=
  if phase = .DOWN ∧ angle > startT then (.UP, true)
  else if angle > startT then (.START, false)
  else if angle < downT then (.DOWN, false)
  else (phase, false)

/-- Spec-side transition for the extension-first pattern (bicep curl),
mirroring `stepSpecFlex`: a rep completes exactly when the phase is UP
and the angle strictly exceeds `startThreshold` (phase becomes DOWN);
exceeding `startThreshold` otherwise resets to START; an angle strictly
below `upThreshold` sends the phase to UP; otherwise unchanged. -/
def stepSpecExt (startT upT : ℚ) (phase : Stage) (angle : ℚ) :
    Stage × Bool :=
  if phase = .UP ∧ angle > startT then (.DOWN, true)
  else if angle > startT then (.START, false)
  else if angle < upT then (.UP, false)
  else (phase, false)

/-- The exercise kinds the scorer distinguishes. -/
inductive Kind
  | squat
  | pushup
  | bicep
  | other
deriving DecidableEq, Repr

/-- Classification of an exercise name into a kind (substring match on the
lowercased name, with the source's dispatch priority squat → push →
bicep). -/
def kindOf (name : String) : Kind :=
  if containsSub (strLower name) "squat" then .squat
  else if containsSub (strLower name) "push" then .pushup
  else if containsSub (strLower name) "bicep" then .bicep
  else .other

/-- Spec-side scoring table, transcribed from the claim: per-kind bands in
the critical phase (all bounds inclusive), 95 outside the critical phase,
80 for an unrecognized kind. -/
def formScoreSpec (k : Kind) (stage : Stage) (angle : ℚ) : ℕ :=
  match k with
  | .squat =>
    if stage = .DOWN then
      if 70 ≤ angle ∧ angle ≤ 90 then 100
      else if 65 ≤ angle ∧ angle ≤ 95 then 90
      else if 60 ≤ angle ∧ angle ≤ 100 then 75
      else if 50 ≤ angle ∧ angle ≤ 110 then 60
      else 40
    else 95
  | .pushup =>
    if stage = .DOWN then
      if 60 ≤ angle ∧ angle ≤ 90 then 100
      else if 55 ≤ angle ∧ angle ≤ 95 then 90
      else if 50 ≤ angle ∧ angle ≤ 100 then 75
      else 60
    else 95
  | .bicep =>
    if stage = .UP then
      if 30 ≤ angle ∧ angle ≤ 50 then 100
      else if 25 ≤ angle ∧ angle ≤ 55 then 90
      else if 20 ≤ angle ∧ angle ≤ 60 then 75
      else 60
    else 95
  | .other => 80

/-! ### Theorems -/

/-- The source state machine equals the spec-side transition function
(shared helper behind the C2 theorem). -/
theorem state_machine_eq_spec (nm : String) (cfg : Engine) (st : Stage)
    (a : ℚ) :
    state_machine nm cfg st a =
      (if containsSub (strLower nm) "bicep" then
        stepSpecExt cfg.start_threshold cfg.up_threshold st a
      else
        stepSpecFlex cfg.start_threshold cfg.down_threshold st a) := by
  unfold state_machine stepSpecExt stepSpecFlex
  cases hb : containsSub (strLower nm) "bicep" <;>
    simp only [hb, Bool.false_eq_true, if_false, if_true] <;>
    by_cases hgt : a > cfg.start_threshold <;>
    cases st <;>
    simp [hgt]

/-- C2: the source state machine coincides with the claim's transition
description — flexion-first for any exercise whose name does not contain
"bicep" (reps complete on DOWN + angle above `startThreshold`), mirrored
extension-first for bicep curls. -/
theorem c2_rep_state_machine (nm : String) (cfg : Engine) (st : Stage)
    (a : ℚ) :
    state_machine nm cfg st a =
      (if containsSub (strLower nm) "bicep" then
        stepSpecExt cfg.start_threshold cfg.up_threshold st a
      else
        stepSpecFlex cfg.start_threshold cfg.down_threshold st a) :=
  state_machine_eq_spec nm cfg st a

/-- The source scorer agrees with the spec-side band table everywhere. -/
theorem calculate_form_score_eq (nm : String) (st : Stage) (a : ℚ) :
    calculate_form_score nm st a = formScoreSpec (kindOf nm) st a := by
  unfold calculate_form_score formScoreSpec kindOf
  by_cases h1 : containsSub (strLower nm) "squat" = true <;>
  by_cases h2 : containsSub (strLower nm) "push" = true <;>
  by_cases h3 : containsSub (strLower nm) "bicep" = true <;>
  simp [h1, h2, h3]

/-- Every spec-side score is at most 100. -/
theorem formScoreSpec_le_100 (k : Kind) (st : Stage) (a : ℚ) :
    formScoreSpec k st a ≤ 100 := by
  cases k <;> simp only [formScoreSpec] <;>
    first
    | (split_ifs <;> norm_num)
    | norm_num

/-- C4: the source form scorer realizes exactly the claim's per-kind band
table (inclusive bounds, fixed 95 outside the critical phase, default 80
for an unrecognized kind), and every score is at most 100. -/
theorem c4_form_scoring_bands (nm : String) (st : Stage) (a : ℚ) :
    calculate_form_score nm st a = formScoreSpec (kindOf nm) st a ∧
    calculate_form_score nm st a ≤ 100 := by
  refine ⟨calculate_form_score_eq nm st a, ?_⟩
  rw [calculate_form_score_eq nm st a]
  exact formScoreSpec_le_100 (kindOf nm) st a

/-- The angle is nonnegative for every input. -/
theorem calculate_angle_nonneg (p1 p2 p3 : ℝ × ℝ) :
    0 ≤ calculate_angle p1 p2 p3 := by
  unfold calculate_angle
  split_ifs
  · exact le_refl 0
  · apply div_nonneg _ Real.pi_pos.le
    exact mul_nonneg (Real.arccos_nonneg _) (by norm_num)

/-- The angle is at most 180 degrees for every input. -/
theorem calculate_angle_le_180 (p1 p2 p3 : ℝ × ℝ) :
    calculate_angle p1 p2 p3 ≤ 180 := by
  unfold calculate_angle
  split_ifs
  · norm_num
  · rw [div_le_iff Real.pi_pos]
    have h := Real.arccos_le_pi (max (-1) (min 1
      (((p1.1 - p2.1) * (p3.1 - p2.1) + (p1.2 - p2.2) * (p3.2 - p2.2)) /
       (Real.sqrt ((p1.1 - p2.1) ^ 2 + (p1.2 - p2.2) ^ 2) *
        Real.sqrt ((p3.1 - p2.1) ^ 2 + (p3.2 - p2.2) ^ 2)))))
    nlinarith [Real.pi_pos]

/-- Swapping the outer points leaves the angle unchanged. -/
theorem calculate_angle_symm (p1 p2 p3 : ℝ × ℝ) :
    calculate_angle p1 p2 p3 = calculate_angle p3 p2 p1 := by
  unfold calculate_angle
  by_cases h : Real.sqrt ((p1.1 - p2.1) ^ 2 + (p1.2 - p2.2) ^ 2) = 0 ∨
      Real.sqrt ((p3.1 - p2.1) ^ 2 + (p3.2 - p2.2) ^ 2) = 0
  · rw [if_pos h, if_pos (h.elim Or.inr Or.inl)]
  · rw [if_neg h, if_neg (fun hc => h (hc.elim Or.inr Or.inl))]
    have hd : (p3.1 - p2.1) * (p1.1 - p2.1) + (p3.2 - p2.2) * (p1.2 - p2.2) =
        (p1.1 - p2.1) * (p3.1 - p2.1) + (p1.2 - p2.2) * (p3.2 - p2.2) := by
      ring
    rw [hd, mul_comm (Real.sqrt ((p3.1 - p2.1) ^ 2 + (p3.2 - p2.2) ^ 2))
      (Real.sqrt ((p1.1 - p2.1) ^ 2 + (p1.2 - p2.2) ^ 2))]

/-- C8: for inputs whose leg vectors are both nonzero, the computed angle
lies in `[0, 180]` and is symmetric in the outer points. -/
theorem c8_angle_range_symmetry (p1 p2 p3 : ℝ × ℝ) (h1 : p1 ≠ p2)
    (h3 : p3 ≠ p2) :
    0 ≤ calculate_angle p1 p2 p3 ∧ calculate_angle p1 p2 p3 ≤ 180 ∧
    calculate_angle p1 p2 p3 = calculate_angle p3 p2 p1 :=
  ⟨calculate_angle_nonneg p1 p2 p3, calculate_angle_le_180 p1 p2 p3,
   calculate_angle_symm p1 p2 p3⟩

/-- Witness for C8 at the concrete right-angle input
`p1 = (1,0), p2 = (0,0), p3 = (0,1)`. -/
theorem c8_angle_range_symmetry_witness :
    0 ≤ calculate_angle (1, 0) (0, 0) (0, 1) ∧
    calculate_angle (1, 0) (0, 0) (0, 1) ≤ 180 ∧
    calculate_angle (1, 0) (0, 0) (0, 1) = calculate_angle (0, 1) (0, 0) (1, 0) :=
  c8_angle_range_symmetry (1, 0) (0, 0) (0, 1) (by simp) (by simp)

/-- C9: when either outer point coincides with the vertex (a zero-length
leg vector), the angle computation returns 0 via the degenerate guard. -/
theorem c9_degenerate_angle_guard (p1 p2 p3 : ℝ × ℝ)
    (h : p1 = p2 ∨ p3 = p2) : calculate_angle p1 p2 p3 = 0 := by
  rcases h with h | h <;> subst h <;> simp [calculate_angle]

/-- Witness for C9 at the concrete input `p1 = p2 = (2,3)`, `p3 = (5,7)`. -/
theorem c9_degenerate_angle_guard_witness :
    calculate_angle (2, 3) (2, 3) (5, 7) = 0 :=
  c9_degenerate_angle_guard (2, 3) (2, 3) (5, 7) (Or.inl rfl)

/-- If no landmark in the frame carries the id of the first configured
joint, the scan leaves `point1` untouched. -/
theorem scanPoints_fst_none (l1 l2 l3 : ℕ) :
    ∀ (L : List Landmark)
      (acc : Option (ℚ × ℚ) × Option (ℚ × ℚ) × Option (ℚ × ℚ)),
      (∀ lm ∈ L, lm.1 ≠ l1) → (scanPoints l1 l2 l3 acc L).1 = acc.1
  | [], _, _ => rfl
  | lm :: rest, acc, h => by
    have hlm : lm.1 ≠ l1 := h lm (List.mem_cons_self _ _)
    have hrest : ∀ x ∈ rest, x.1 ≠ l1 :=
      fun x hx => h x (List.mem_cons_of_mem _ hx)
    simp only [scanPoints]
    rw [scanPoints_fst_none l1 l2 l3 rest _ hrest]
    split_ifs <;> simp_all

/-- If no landmark in the frame carries the id of the second configured
joint, the scan leaves `point2` untouched. -/
theorem scanPoints_snd_none (l1 l2 l3 : ℕ) :
    ∀ (L : List Landmark)
      (acc : Option (ℚ × ℚ) × Option (ℚ × ℚ) × Option (ℚ × ℚ)),
      (∀ lm ∈ L, lm.1 ≠ l2) → (scanPoints l1 l2 l3 acc L).2.1 = acc.2.1
  | [], _, _ => rfl
  | lm :: rest, acc, h => by
    have hlm : lm.1 ≠ l2 := h lm (List.mem_cons_self _ _)
    have hrest : ∀ x ∈ rest, x.1 ≠ l2 :=
      fun x hx => h x (List.mem_cons_of_mem _ hx)
    simp only [scanPoints]
    rw [scanPoints_snd_none l1 l2 l3 rest _ hrest]
    split_ifs <;> simp_all

/-- If no landmark in the frame carries the id of the third configured
joint, the scan leaves `point3` untouched. -/
theorem scanPoints_trd_none (l1 l2 l3 : ℕ) :
    ∀ (L : List Landmark)
      (acc : Option (ℚ × ℚ) × Option (ℚ × ℚ) × Option (ℚ × ℚ)),
      (∀ lm ∈ L, lm.1 ≠ l3) → (scanPoints l1 l2 l3 acc L).2.2 = acc.2.2
  | [], _, _ => rfl
  | lm :: rest, acc, h => by
    have hlm : lm.1 ≠ l3 := h lm (List.mem_cons_self _ _)
    have hrest : ∀ x ∈ rest, x.1 ≠ l3 :=
      fun x hx => h x (List.mem_cons_of_mem _ hx)
    simp only [scanPoints]
    rw [scanPoints_trd_none l1 l2 l3 rest _ hrest]
    split_ifs <;> simp_all

/-- A frame missing one of the three configured joints leaves the
corresponding collected point `none`. -/
theorem findPoints_missing (l1 l2 l3 : ℕ) (L : List Landmark)
    (h : (∀ lm ∈ L, lm.1 ≠ l1) ∨ (∀ lm ∈ L, lm.1 ≠ l2) ∨
         (∀ lm ∈ L, lm.1 ≠ l3)) :
    (findPoints l1 l2 l3 L).1 = none ∨ (findPoints l1 l2 l3 L).2.1 = none ∨
    (findPoints l1 l2 l3 L).2.2 = none := by
  rcases h with h | h | h
  · exact Or.inl (scanPoints_fst_none l1 l2 l3 L _ h)
  · exact Or.inr (Or.inl (scanPoints_snd_none l1 l2 l3 L _ h))
  · exact Or.inr (Or.inr (scanPoints_trd_none l1 l2 l3 L _ h))

/-- C6: a frame with zero landmarks returns
`(repCount, phase, "No pose detected", "", 0)` without touching the
engine state, and a non-empty frame missing one of the three configured
joints returns `(repCount, phase, "Required landmarks not detected", "", 0)`,
again leaving every state field (rep count, phase, stored score and
feedback strings) unchanged. -/
theorem c6_missing_input_atomicity (cfg : Engine)
    (eC : String → ℚ → String → Bool) (aF : ℚ × ℚ → ℚ × ℚ → ℚ × ℚ → ℚ)
    (s : EngineState) (L : List Landmark) (l1 l2 l3 : ℕ)
    (ht : cfg.landmarkTriple? = some (l1, l2, l3)) (hL : L ≠ [])
    (habs : (∀ lm ∈ L, lm.1 ≠ l1) ∨ (∀ lm ∈ L, lm.1 ≠ l2) ∨
            (∀ lm ∈ L, lm.1 ≠ l3)) :
    process cfg eC aF s [] =
      (s, .ok { reps := s.reps, stage := s.current_stage,
                feedback := "No pose detected", voice := "", score := 0 }) ∧
    process cfg eC aF s L =
      (s, .ok { reps := s.reps, stage := s.current_stage,
                feedback := "Required landmarks not detected", voice := "",
                score := 0 }) := by
  constructor
  · simp [process]
  · have hfp := findPoints_missing l1 l2 l3 L habs
    unfold process
    rw [if_neg hL, ht]
    rcases hp : findPoints l1 l2 l3 L with ⟨o1, o2, o3⟩
    rw [hp] at hfp
    cases o1 <;> cases o2 <;> cases o3 <;> simp_all

/-- Witness for C6: a squat engine on joints `(23, 25, 27)` with a frame
carrying only joints 23 and 25. -/
theorem c6_missing_input_atomicity_witness :
    process demoEngine trivialCond zeroAngle initialState [] =
      (initialState,
       .ok { reps := initialState.reps, stage := initialState.current_stage,
             feedback := "No pose detected", voice := "", score := 0 }) ∧
    process demoEngine trivialCond zeroAngle initialState
        [(23, 0, 0), (25, 1, 0)] =
      (initialState,
       .ok { reps := initialState.reps, stage := initialState.current_stage,
             feedback := "Required landmarks not detected", voice := "",
             score := 0 }) :=
  c6_missing_input_atomicity demoEngine trivialCond zeroAngle initialState
    [(23, 0, 0), (25, 1, 0)] 23 25 27 rfl (by decide)
    (Or.inr (Or.inr (by decide)))

/-- When the frame is non-empty, the landmark triple is configured and
all three joints are found, `process` reduces to the post-angle core. -/
theorem process_reaches_core (cfg : Engine)
    (eC : String → ℚ → String → Bool) (aF : ℚ × ℚ → ℚ × ℚ → ℚ × ℚ → ℚ)
    (s : EngineState) (L : List Landmark) (l1 l2 l3 : ℕ) (p1 p2 p3 : ℚ × ℚ)
    (ht : cfg.landmarkTriple? = some (l1, l2, l3)) (hL : L ≠ [])
    (hp : findPoints l1 l2 l3 L = (some p1, some p2, some p3)) :
    process cfg eC aF s L = processCore cfg eC s (aF p1 p2 p3) := by
  unfold process
  rw [if_neg hL, ht]
  simp only [hp]

/-- The repetition count produced by the core: incremented exactly when
the state machine reports a completed repetition and the score computed
against the pre-transition stage meets the perfect-form threshold. -/
theorem processCore_reps (cfg : Engine) (eC : String → ℚ → String → Bool)
    (s : EngineState) (a : ℚ) (nm : String) (hn : cfg.name? = some nm) :
    (processCore cfg eC s a).1.reps =
      (if (state_machine nm cfg s.current_stage a).2 ∧
          perfect_form_threshold ≤ calculate_form_score nm s.current_stage a
       then s.reps + 1 else s.reps) := by
  simp only [processCore, hn]
  split <;> split_ifs <;> rfl

/-- The stage stored by the core is the state machine's post-transition
stage. -/
theorem processCore_stage (cfg : Engine) (eC : String → ℚ → String → Bool)
    (s : EngineState) (a : ℚ) (nm : String) (hn : cfg.name? = some nm) :
    (processCore cfg eC s a).1.current_stage =
      (state_machine nm cfg s.current_stage a).1 := by
  simp only [processCore, hn]
  split <;> split_ifs <;> rfl

/-- C1: on a call that reaches the state machine, the repetition counter
is incremented exactly once when a repetition completes with a form score
(computed this call) of at least 85, and is unchanged otherwise. -/
theorem c1_perfect_form_gate (cfg : Engine)
    (eC : String → ℚ → String → Bool) (aF : ℚ × ℚ → ℚ × ℚ → ℚ × ℚ → ℚ)
    (s : EngineState) (L : List Landmark) (l1 l2 l3 : ℕ) (p1 p2 p3 : ℚ × ℚ)
    (nm : String) (ht : cfg.landmarkTriple? = some (l1, l2, l3))
    (hL : L ≠ []) (hp : findPoints l1 l2 l3 L = (some p1, some p2, some p3))
    (hn : cfg.name? = some nm) :
    (process cfg eC aF s L).1.reps =
      (if (state_machine nm cfg s.current_stage (aF p1 p2 p3)).2 ∧
          perfect_form_threshold ≤
            calculate_form_score nm s.current_stage (aF p1 p2 p3)
       then s.reps + 1 else s.reps) := by
  rw [process_reaches_core cfg eC aF s L l1 l2 l3 p1 p2 p3 ht hL hp]
  exact processCore_reps cfg eC s (aF p1 p2 p3) nm hn

/-- Witness for C1: the squat demo engine at the bottom of a squat fed an
extension frame (angle 170); the repetition completes but the score
computed this call (40, against the DOWN phase) is below the gate, so the
counter stays at 0. -/
theorem c1_perfect_form_gate_witness :
    (process demoEngine trivialCond (angleConst 170) downState frame23).1.reps =
      (if (state_machine "Squat" demoEngine downState.current_stage
             (angleConst 170 (0, 0) (1, 0) (1, 1))).2 ∧
          perfect_form_threshold ≤
            calculate_form_score "Squat" downState.current_stage
              (angleConst 170 (0, 0) (1, 0) (1, 1))
       then downState.reps + 1 else downState.reps) :=
  c1_perfect_form_gate demoEngine trivialCond (angleConst 170) downState
    frame23 23 25 27 (0, 0) (1, 0) (1, 1) "Squat" rfl (by decide) (by decide)
    rfl

/-- C3: on a call that reaches the state machine and returns normally,
the returned score is the one computed against the pre-transition phase,
the returned stage is the post-transition phase, and the returned
feedback/voice pair is generated from the post-transition phase together
with that pre-transition score. -/
theorem c3_phase_ordering (cfg : Engine)
    (eC : String → ℚ → String → Bool) (aF : ℚ × ℚ → ℚ × ℚ → ℚ × ℚ → ℚ)
    (s : EngineState) (L : List Landmark) (l1 l2 l3 : ℕ) (p1 p2 p3 : ℚ × ℚ)
    (nm : String) (ht : cfg.landmarkTriple? = some (l1, l2, l3))
    (hL : L ≠ []) (hp : findPoints l1 l2 l3 L = (some p1, some p2, some p3))
    (hn : cfg.name? = some nm) (out : Output)
    (hout : (process cfg eC aF s L).2 = .ok out) :
    out.score = calculate_form_score nm s.current_stage (aF p1 p2 p3) ∧
    out.stage = (state_machine nm cfg s.current_stage (aF p1 p2 p3)).1 ∧
    generate_feedback cfg eC (aF p1 p2 p3)
        (state_machine nm cfg s.current_stage (aF p1 p2 p3)).1
        (calculate_form_score nm s.current_stage (aF p1 p2 p3)) =
      .ok (out.feedback, out.voice) := by
  rw [process_reaches_core cfg eC aF s L l1 l2 l3 p1 p2 p3 ht hL hp] at hout
  simp only [processCore, hn] at hout
  split at hout
  · exact absurd hout (by simp)
  next fv heq =>
    simp only [Except.ok.injEq] at hout
    subst hout
    refine ⟨rfl, rfl, ?_⟩
    rw [heq]

/-- Witness for C3: the squat demo engine in START fed an 80-degree frame
returns score 95 (scored against the pre-transition START phase), stage
DOWN (post-transition), and the feedback generated from DOWN with that
score. -/
theorem c3_phase_ordering_witness :
    (Output.mk 0 .DOWN "Perfect Form!" "Excellent technique! Keep it up!"
        95).score =
      calculate_form_score "Squat" initialState.current_stage
        (angleConst 80 (0, 0) (1, 0) (1, 1)) ∧
    (Output.mk 0 .DOWN "Perfect Form!" "Excellent technique! Keep it up!"
        95).stage =
      (state_machine "Squat" demoEngine initialState.current_stage
        (angleConst 80 (0, 0) (1, 0) (1, 1))).1 ∧
    generate_feedback demoEngine trivialCond
        (angleConst 80 (0, 0) (1, 0) (1, 1))
        (state_machine "Squat" demoEngine initialState.current_stage
          (angleConst 80 (0, 0) (1, 0) (1, 1))).1
        (calculate_form_score "Squat" initialState.current_stage
          (angleConst 80 (0, 0) (1, 0) (1, 1))) =
      .ok ((Output.mk 0 .DOWN "Perfect Form!"
        "Excellent technique! Keep it up!" 95).feedback,
        (Output.mk 0 .DOWN "Perfect Form!"
          "Excellent technique! Keep it up!" 95).voice) :=
  c3_phase_ordering demoEngine trivialCond (angleConst 80) initialState
    frame23 23 25 27 (0, 0) (1, 0) (1, 1) "Squat" rfl (by decide)
    (by decide) rfl
    (Output.mk 0 .DOWN "Perfect Form!" "Excellent technique! Keep it up!" 95)
    rfl

/-- After a flexion-first transition with some angle, feeding the same
angle again can never complete a repetition. -/
theorem stepSpecFlex_post (sT dT : ℚ) (st : Stage) (a : ℚ) :
    (stepSpecFlex sT dT (stepSpecFlex sT dT st a).1 a).2 = false := by
  unfold stepSpecFlex
  by_cases h1 : a > sT <;> by_cases h2 : st = Stage.DOWN <;>
    by_cases h3 : a < dT <;> simp [h1, h2, h3]

/-- After an extension-first transition with some angle, feeding the same
angle again can never complete a repetition. -/
theorem stepSpecExt_post (sT uT : ℚ) (st : Stage) (a : ℚ) :
    (stepSpecExt sT uT (stepSpecExt sT uT st a).1 a).2 = false := by
  unfold stepSpecExt
  by_cases h1 : a > sT <;> by_cases h2 : st = Stage.UP <;>
    by_cases h3 : a < uT <;> simp [h1, h2, h3]

/-- After any state-machine transition, re-feeding the identical angle
reports no completed repetition. -/
theorem state_machine_post (nm : String) (cfg : Engine) (st : Stage)
    (a : ℚ) :
    (state_machine nm cfg (state_machine nm cfg st a).1 a).2 = false := by
  rw [state_machine_eq_spec, state_machine_eq_spec]
  by_cases hb : containsSub (strLower nm) "bicep" = true <;> simp only [hb] <;>
    simp only [if_true, if_false, Bool.false_eq_true] <;>
    first
    | exact stepSpecExt_post cfg.start_threshold cfg.up_threshold st a
    | exact stepSpecFlex_post cfg.start_threshold cfg.down_threshold st a

/-- A core step from a state whose stage cannot complete a repetition at
this angle leaves the repetition count unchanged. -/
theorem processCore_noRep_reps (cfg : Engine)
    (eC : String → ℚ → String → Bool) (s : EngineState) (a : ℚ)
    (nm : String) (hn : cfg.name? = some nm)
    (hnr : (state_machine nm cfg s.current_stage a).2 = false) :
    (processCore cfg eC s a).1.reps = s.reps := by
  rw [processCore_reps cfg eC s a nm hn]
  simp [hnr]

/-- A single `process` call increases the repetition count by at most
one. -/
theorem process_reps_le (cfg : Engine) (eC : String → ℚ → String → Bool)
    (aF : ℚ × ℚ → ℚ × ℚ → ℚ × ℚ → ℚ) (s : EngineState)
    (L : List Landmark) :
    (process cfg eC aF s L).1.reps ≤ s.reps + 1 := by
  unfold process
  split_ifs
  · exact Nat.le_succ s.reps
  split
  · exact Nat.le_succ s.reps
  split
  · cases hn : cfg.name? with
    | none =>
      simp only [processCore, hn]
      exact Nat.le_succ s.reps
    | some nm =>
      rw [processCore_reps cfg eC s _ nm hn]
      split_ifs <;> simp
  · exact Nat.le_succ s.reps

/-- The second of two identical calls never changes the repetition
count. -/
theorem process_post_reps (cfg : Engine) (eC : String → ℚ → String → Bool)
    (aF : ℚ × ℚ → ℚ × ℚ → ℚ × ℚ → ℚ) (s : EngineState)
    (L : List Landmark) :
    (process cfg eC aF ((process cfg eC aF s L).1) L).1.reps =
      ((process cfg eC aF s L).1).reps := by
  by_cases hL : L = []
  · subst hL
    simp [process]
  cases ht : cfg.landmarkTriple? with
  | none =>
    have hfix : ∀ u : EngineState, (process cfg eC aF u L).1 = u := by
      intro u
      unfold process
      rw [if_neg hL, ht]
    rw [hfix]
  | some t =>
    rcases hp : findPoints t.1 t.2.1 t.2.2 L with ⟨o1, o2, o3⟩
    cases o1 with
    | none =>
      have hfix : ∀ u : EngineState, (process cfg eC aF u L).1 = u := by
        intro u
        unfold process
        rw [if_neg hL, ht]
        simp [hp]
      rw [hfix]
    | some p1 =>
      cases o2 with
      | none =>
        have hfix : ∀ u : EngineState, (process cfg eC aF u L).1 = u := by
          intro u
          unfold process
          rw [if_neg hL, ht]
          simp [hp]
        rw [hfix]
      | some p2 =>
        cases o3 with
        | none =>
          have hfix : ∀ u : EngineState, (process cfg eC aF u L).1 = u := by
            intro u
            unfold process
            rw [if_neg hL, ht]
            simp [hp]
          rw [hfix]
        | some p3 =>
          have hred : ∀ u : EngineState,
              process cfg eC aF u L = processCore cfg eC u (aF p1 p2 p3) :=
            fun u => process_reaches_core cfg eC aF u L t.1 t.2.1 t.2.2
              p1 p2 p3 (by rw [ht]) hL hp
          rw [hred, hred]
          cases hn : cfg.name? with
          | none =>
            have hfix : ∀ u : EngineState,
                (processCore cfg eC u (aF p1 p2 p3)).1 = u := by
              intro u
              simp [processCore, hn]
            rw [hfix]
          | some nm =>
            apply processCore_noRep_reps cfg eC _ _ nm hn
            rw [processCore_stage cfg eC s (aF p1 p2 p3) nm hn]
            exact state_machine_post nm cfg s.current_stage (aF p1 p2 p3)

/-- Iterating the identical frame after a first call never changes the
repetition count again. -/
theorem processN_post (cfg : Engine) (eC : String → ℚ → String → Bool)
    (aF : ℚ × ℚ → ℚ × ℚ → ℚ × ℚ → ℚ) (L : List Landmark) :
    ∀ (n : ℕ) (s : EngineState),
      (processN cfg eC aF L n ((process cfg eC aF s L).1)).reps =
        ((process cfg eC aF s L).1).reps
  | 0, _ => rfl
  | n + 1, s => by
    show (processN cfg eC aF L n
      ((process cfg eC aF ((process cfg eC aF s L).1) L).1)).reps = _
    rw [processN_post cfg eC aF L n ((process cfg eC aF s L).1)]
    exact process_post_reps cfg eC aF s L

/-- C7: any single `process` call increments the repetition count by at
most 1, and feeding the identical frame `n` times in succession
increments it at most once over the whole run. -/
theorem c7_rep_idempotence (cfg : Engine)
    (eC : String → ℚ → String → Bool) (aF : ℚ × ℚ → ℚ × ℚ → ℚ × ℚ → ℚ)
    (L : List Landmark) (n : ℕ) (s : EngineState) :
    (process cfg eC aF s L).1.reps ≤ s.reps + 1 ∧
    (processN cfg eC aF L n s).reps ≤ s.reps + 1 := by
  refine ⟨process_reps_le cfg eC aF s L, ?_⟩
  cases n with
  | zero => exact Nat.le_succ s.reps
  | succ m =>
    show (processN cfg eC aF L m ((process cfg eC aF s L).1)).reps ≤ _
    rw [processN_post cfg eC aF L m s]
    exact process_reps_le cfg eC aF s L

/-- The feedback generator can only fail by reading a missing `feedback`
key; with the key present it always returns a pair. -/
theorem generate_feedback_ok (cfg : Engine)
    (eC : String → ℚ → String → Bool) (a : ℚ) (st : Stage) (sc : ℕ)
    (rules : List Rule) (hr : cfg.feedback_rules? = some rules) :
    ∃ fv, generate_feedback cfg eC a st sc = .ok fv := by
  unfold generate_feedback
  rw [hr]
  by_cases hlt : sc < perfect_form_threshold
  · rw [if_pos hlt]
    by_cases h60 : sc < 60
    · rw [if_pos h60]
      exact ⟨_, rfl⟩
    · rw [if_neg h60]
      exact ⟨_, rfl⟩
  · rw [if_neg hlt]
    rcases hfind : rules.find? (fun r => eC r.condition a (stageStr st)) with
      _ | r <;> simp only [hfind]
    · split_ifs <;>
        first
        | exact ⟨_, rfl⟩
        | (cases st <;> exact ⟨_, rfl⟩)
    · exact ⟨_, rfl⟩

/-- Counterexample to C5: `noNameConfig` is malformed (it lacks the
`name` key) yet `__init__` constructs an engine from it, and `process` on
a complete frame then raises `KeyError` instead of absorbing the error. -/
theorem c5_counterexample :
    init (some (some noNameConfig)) = .ok noNameEngine ∧
    (process noNameEngine trivialCond zeroAngle initialState frame23).2 =
      .error "KeyError: name" := by
  constructor <;> rfl

/-- C5 (amended): `process` never raises for an engine whose definition
supplies the `name` and `feedback` keys and a complete landmark triple;
and a missing exercise file still fails at construction. -/
theorem c5_amended_exception_policy (cfg : Engine)
    (eC : String → ℚ → String → Bool) (aF : ℚ × ℚ → ℚ × ℚ → ℚ × ℚ → ℚ)
    (s : EngineState) (L : List Landmark) (nm : String) (rules : List Rule)
    (t : ℕ × ℕ × ℕ) (hn : cfg.name? = some nm)
    (hr : cfg.feedback_rules? = some rules)
    (ht : cfg.landmarkTriple? = some t) :
    (∃ out, (process cfg eC aF s L).2 = .ok out) ∧
    init none = .error "FileNotFoundError" := by
  refine ⟨?_, rfl⟩
  by_cases hL : L = []
  · subst hL
    exact ⟨_, rfl⟩
  unfold process
  rw [if_neg hL, ht]
  rcases hp : findPoints t.1 t.2.1 t.2.2 L with ⟨o1, o2, o3⟩
  simp only [hp]
  cases o1 with
  | none => exact ⟨_, rfl⟩
  | some p1 =>
    cases o2 with
    | none => exact ⟨_, rfl⟩
    | some p2 =>
      cases o3 with
      | none => exact ⟨_, rfl⟩
      | some p3 =>
        simp only [processCore, hn]
        obtain ⟨fv, hfv⟩ := generate_feedback_ok cfg eC (aF p1 p2 p3)
          (state_machine nm cfg s.current_stage (aF p1 p2 p3)).1
          (calculate_form_score nm s.current_stage (aF p1 p2 p3)) rules hr
        rw [hfv]
        exact ⟨_, rfl⟩

/-- Witness for the amended C5 at the squat demo engine on a complete
frame. -/
theorem c5_amended_exception_policy_witness :
    (∃ out,
      (process demoEngine trivialCond zeroAngle initialState frame23).2 =
        .ok out) ∧
    init none = .error "FileNotFoundError" :=
  c5_amended_exception_policy demoEngine trivialCond zeroAngle initialState
    frame23 "Squat" [] (23, 25, 27) rfl rfl rfl

/-- An exercise name recognized by none of the three kinds always scores
80. -/
theorem calculate_form_score_other (nm : String)
    (h1 : containsSub (strLower nm) "squat" = false)
    (h2 : containsSub (strLower nm) "push" = false)
    (h3 : containsSub (strLower nm) "bicep" = false) (st : Stage) (a : ℚ) :
    calculate_form_score nm st a = 80 := by
  rw [calculate_form_score_eq]
  unfold kindOf
  simp [h1, h2, h3, formScoreSpec]

/-- A single call on an engine whose name matches no kind never changes
the repetition count. -/
theorem process_other_reps (cfg : Engine)
    (eC : String → ℚ → String → Bool) (aF : ℚ × ℚ → ℚ × ℚ → ℚ × ℚ → ℚ)
    (nm : String) (hn : cfg.name? = some nm)
    (h1 : containsSub (strLower nm) "squat" = false)
    (h2 : containsSub (strLower nm) "push" = false)
    (h3 : containsSub (strLower nm) "bicep" = false) (s : EngineState)
    (L : List Landmark) : (process cfg eC aF s L).1.reps = s.reps := by
  unfold process
  split_ifs
  · rfl
  split
  · rfl
  split
  · rw [processCore_reps cfg eC s _ nm hn,
      calculate_form_score_other nm h1 h2 h3]
    simp [perfect_form_threshold]
  · rfl

/-- C10: an exercise whose lowercased name contains none of "squat",
"push", "bicep" always scores 80, strictly below the 85 gate, and hence
no sequence of `process` calls ever increments its repetition count. -/
theorem c10_unrecognized_kind_never_counts (cfg : Engine)
    (eC : String → ℚ → String → Bool) (aF : ℚ × ℚ → ℚ × ℚ → ℚ × ℚ → ℚ)
    (nm : String) (hn : cfg.name? = some nm)
    (h1 : containsSub (strLower nm) "squat" = false)
    (h2 : containsSub (strLower nm) "push" = false)
    (h3 : containsSub (strLower nm) "bicep" = false) :
    (∀ (st : Stage) (a : ℚ),
      calculate_form_score nm st a = 80 ∧ 80 < perfect_form_threshold) ∧
    ∀ (s : EngineState) (frames : List (List Landmark)),
      (processSeq cfg eC aF s frames).reps = s.reps := by
  refine ⟨fun st a => ⟨calculate_form_score_other nm h1 h2 h3 st a,
    by norm_num [perfect_form_threshold]⟩, ?_⟩
  intro s frames
  induction frames generalizing s with
  | nil => rfl
  | cons L rest ih =>
    show (processSeq cfg eC aF (process cfg eC aF s L).1 rest).reps = s.reps
    rw [ih ((process cfg eC aF s L).1)]
    exact process_other_reps cfg eC aF nm hn h1 h2 h3 s L

/-- Witness for C10: the "Yoga" variant of the demo engine over a squat
frame sequence. -/
theorem c10_unrecognized_kind_never_counts_witness :
    (∀ (st : Stage) (a : ℚ),
      calculate_form_score "Yoga" st a = 80 ∧ 80 < perfect_form_threshold) ∧
    ∀ (s : EngineState) (frames : List (List Landmark)),
      (processSeq otherEngine trivialCond zeroAngle s frames).reps =
        s.reps :=
  c10_unrecognized_kind_never_counts otherEngine trivialCond zeroAngle
    "Yoga" rfl (by decide) (by decide) (by decide)

end FitnessEngine
